import Mathlib

/-!
Verification development for the casino promotion core system
(`casino_system.py`).

The source is a single Python class `CasinoSystem` that replays a list of
transaction lines against in-memory state.  We embed it shallowly:

* Python dicts become association lists (`List (String × α)`) with
  insert-or-update (`aset`) and lookup (`alookup`), which matches Python's
  insertion-order semantics;
* the deque of scenarios becomes a `List (List String)` with append at the
  back and pop at the front;
* every handler returns `CasinoSystem × Option String`: the state at the
  point of normal return or of the raise, together with the error message
  when an exception was raised (Python exceptions propagate out of the
  handler with all mutations made so far retained, which this encoding
  preserves);
* file I/O (`get_file_content`, `save_outputs`) is an external adapter in
  the source and is not modelled; `make_transactions` takes the list of
  stripped lines directly.
-/

set_option maxHeartbeats 1000000

/-- Helper for `pysplit`: walk the characters, accumulating the current word
in reverse; a whitespace character closes the current word (if nonempty). -/
def splitWsAux : List Char → List Char → List String
  | [], [] => []
  | [], acc => [String.mk acc.reverse]
  | c :: cs, acc =>
    if c.isWhitespace then
      match acc with
      | [] => splitWsAux cs []
      | _ => String.mk acc.reverse :: splitWsAux cs []
    else splitWsAux cs (c :: acc)

/-- Python `str.split()` with no argument: split on runs of whitespace and
drop the empty pieces. -/
def pysplit (s : String) : List String :=
  splitWsAux s.data []

/-- One character list is a prefix of another (Boolean). -/
def charsPrefixOf : List Char → List Char → Bool
  | [], _ => true
  | _ :: _, [] => false
  | p :: ps, c :: cs => p = c && charsPrefixOf ps cs

/-- Python `str.startswith(pre)`. -/
def pystartswith (s pre : String) : Bool :=
  charsPrefixOf pre.data s.data

/-- Drop leading whitespace characters. -/
def dropLeadingWs : List Char → List Char
  | [] => []
  | c :: cs => if c.isWhitespace then dropLeadingWs cs else c :: cs

/-- Python `str.strip()`: drop leading and trailing whitespace. -/
def pystrip (s : String) : String :=
  String.mk ((dropLeadingWs (dropLeadingWs s.data).reverse).reverse)

/-- Value of a digit string (most significant digit first); `none` as soon as
a non-digit character appears. -/
def digitsVal (acc : Nat) : List Char → Option Nat
  | [] => some acc
  | c :: cs => if c.isDigit then digitsVal (acc * 10 + (c.toNat - 48)) cs else none

/-- Python `int(str)` on a whitespace-free token: an optional sign followed by
at least one digit; `none` models the `ValueError` raise. -/
def pyParseInt (s : String) : Option Int :=
  match s.data with
  | [] => none
  | '-' :: cs => if cs = [] then none else (digitsVal 0 cs).map (fun n => -(n : Int))
  | '+' :: cs => if cs = [] then none else (digitsVal 0 cs).map (fun n => (n : Int))
  | cs => (digitsVal 0 cs).map (fun n => (n : Int))

/-- Dict lookup: first (unique) binding of the key, if any. -/
def alookup {α : Type} : List (String × α) → String → Option α
  | [], _ => none
  | (k, v) :: rest, key => if k = key then some v else alookup rest key

/-- Dict store `d[key] = v`: update in place if the key is present, else
append a new binding at the end (Python dict insertion order). -/
def aset {α : Type} : List (String × α) → String → α → List (String × α)
  | [], key, v => [(key, v)]
  | (k, w) :: rest, key, v =>
      if k = key then (k, v) :: rest else (k, w) :: aset rest key v

/-- Dict membership `key in d`. -/
def amem {α : Type} (d : List (String × α)) (key : String) : Bool :=
  (alookup d key).isSome

/-- The processor state: the fields of the Python `CasinoSystem` dataclass
(minus the two file paths, which belong to the I/O adapters). -/
structure CasinoSystem where
  balances : List (String × Int) := []
  outputs : List String := []
  win : Bool := true
  unused_scenarios : List (List String) := []
  deposits : List (String × Int) := []
  slot_bets : List (String × Int) := []
  user_campaigns : List (String × List String) := []
deriving DecidableEq, Repr

/-- The initial state: empty dicts, empty queue, empty log, flag at "win". -/
def initCasino : CasinoSystem := {}

/-- `self.balances[user_id] += int(available_campaign[0])` of the campaign
creation branch: load the balance (`KeyError` if the user has no ledger
entry), read element 0 of the campaign (`IndexError` if empty; it never is,
being `sc ++ ["1"]`), parse it (`ValueError` if not an int literal), and store
the increased balance. -/
def pay_prize1 (s1 : CasinoSystem) (user_id : String) (available_campaign : List String) :
    CasinoSystem × Option String :=
  match alookup s1.balances user_id with
  | none => (s1, some "KeyError")
  | some b =>
    match available_campaign.head? with
    | none => (s1, some "IndexError: list index out of range")
    | some p1str =>
      match pyParseInt p1str with
      | none => (s1, some "ValueError: invalid literal for int()")
      | some p1 => ({ s1 with balances := aset s1.balances user_id (b + p1) }, none)

/-- The tier-advance payout body, `k = 2` for the tier-2 branch and `k = 1`
for the tier-1 branch of `check_campaign_status`:
`self.balances[user_id] += int(campaign[k])` followed by
`campaign[:-1].append(marker)` and `self.user_campaigns[user_id] = campaign`.
In the source `campaign[:-1]` builds a fresh copy of the list, the `append`
mutates that copy, and the copy is discarded, so the campaign that is stored
back is the unchanged `campaign` — tier marker included. -/
def pay_tier_prize (s : CasinoSystem) (user_id : String) (campaign : List String) (k : Nat) :
    CasinoSystem × Option String :=
  match alookup s.balances user_id with
  | none => (s, some "KeyError")
  | some b =>
    match campaign.get? k with
    | none => (s, some "IndexError: list index out of range")
    | some pstr =>
      match pyParseInt pstr with
      | none => (s, some "ValueError: invalid literal for int()")
      | some p =>
        ({ s with balances := aset s.balances user_id (b + p),
                  user_campaigns := aset s.user_campaigns user_id campaign }, none)

/-- The `elif` branch of `check_campaign_status`: thresholds 500/250, then
`campaign[-1] == '1'` (reading `campaign[-1]` raises `IndexError` on an empty
list; the short-circuit `and` of the source reaches it only when the
thresholds hold, which this nesting preserves). -/
def try_tier1_to_2 (s : CasinoSystem) (user_id : String) (campaign : List String) :
    CasinoSystem × Option String :=
  if (alookup s.deposits user_id).getD 0 ≥ 500 ∧ (alookup s.slot_bets user_id).getD 0 ≥ 250 then
    match campaign.getLast? with
    | none => (s, some "IndexError: list index out of range")
    | some marker =>
      if marker = "1" then pay_tier_prize s user_id campaign 1
      else (s, none)
  else (s, none)

/-- `check_campaign_status(self, user_id)`: a no-op unless the user has both
a deposits entry and a slot-bets entry; when the user has no campaign yet and
meets the 100/50 thresholds, pop the oldest scenario (`IndexError` when the
deque is empty), append the marker `'1'`, store it as this user's campaign
and pay prize1; otherwise try the tier-2 branch then the tier-1 branch. -/
def check_campaign_status (s : CasinoSystem) (user_id : String) :
    CasinoSystem × Option String :=
  if amem s.deposits user_id ∧ amem s.slot_bets user_id then
    match alookup s.user_campaigns user_id with
    | none =>
      if (alookup s.deposits user_id).getD 0 ≥ 100 ∧ (alookup s.slot_bets user_id).getD 0 ≥ 50 then
        match s.unused_scenarios with
        | [] => (s, some "IndexError: pop from an empty deque")
        | sc :: rest =>
          pay_prize1
            { s with unused_scenarios := rest,
                     user_campaigns := aset s.user_campaigns user_id (sc ++ ["1"]) }
            user_id (sc ++ ["1"])
      else (s, none)
    | some campaign =>
      if (alookup s.deposits user_id).getD 0 ≥ 1000 ∧ (alookup s.slot_bets user_id).getD 0 ≥ 500 then
        match campaign.getLast? with
        | none => (s, some "IndexError: list index out of range")
        | some marker =>
          if marker = "2" then pay_tier_prize s user_id campaign 2
          else try_tier1_to_2 s user_id campaign
      else try_tier1_to_2 s user_id campaign
  else (s, none)

/-- `make_registration`: exactly 2 tokens, no duplicate user, then create the
ledger entry at balance 0. -/
def make_registration (s : CasinoSystem) (transaction : String) :
    CasinoSystem × Option String :=
  match pysplit transaction with
  | [_, user_id] =>
    if amem s.balances user_id then (s, some "User already exists")
    else ({ s with balances := aset s.balances user_id 0 }, none)
  | _ => (s, some "Invalid number of parameters for registration. Format: register <user_id>")

/-- `add_scenario`: exactly 4 tokens, then push the three prize strings (kept
as opaque strings) onto the back of the scenario deque. -/
def add_scenario (s : CasinoSystem) (transaction : String) :
    CasinoSystem × Option String :=
  match pysplit transaction with
  | [_, prize1, prize2, prize3] =>
    ({ s with unused_scenarios := s.unused_scenarios ++ [[prize1, prize2, prize3]] }, none)
  | _ => (s, some "Invalid number of parameters for adding scenario. Format: addscenario <prize1> <prize2> <prize3>")

/-- `make_deposit`: exactly 3 tokens; `int(amount)` first, then positivity,
then registration (the order of the checks in the source), then credit the
balance, bump the deposit total and invoke the campaign evaluator. -/
def make_deposit (s : CasinoSystem) (transaction : String) :
    CasinoSystem × Option String :=
  match pysplit transaction with
  | [_, user_id, amountStr] =>
    match pyParseInt amountStr with
    | none => (s, some "ValueError: invalid literal for int()")
    | some amount =>
      if amount ≤ 0 then (s, some "Deposit amount must be positive")
      else if ! amem s.balances user_id then (s, some "User not registered")
      else
        check_campaign_status
          { s with
              balances := aset s.balances user_id ((alookup s.balances user_id).getD 0 + amount),
              deposits := aset s.deposits user_id ((alookup s.deposits user_id).getD 0 + amount) }
          user_id
  | _ => (s, some "Invalid number of parameters for making deposit. Format: deposit <user_id> <amount>")

/-- The win/loss resolution of `make_bet`: when the stake is coverable
(`amount <= self.balances[user_id]`), credit or debit by the flag and toggle
the flag; otherwise leave the state alone.  The caller has already checked
registration, so the `none` case is unreachable there. -/
def resolve_bet (s : CasinoSystem) (user_id : String) (amount : Int) : CasinoSystem :=
  match alookup s.balances user_id with
  | some b =>
    if amount ≤ b then
      { s with balances := aset s.balances user_id (b + (if s.win then amount else -amount)),
               win := ! s.win }
    else s
  | none => s

/-- The SLOT tail of `make_bet`: bump the slot-wager total and invoke the
campaign evaluator. -/
def add_slot_and_check (s : CasinoSystem) (user_id : String) (amount : Int) :
    CasinoSystem × Option String :=
  check_campaign_status
    { s with slot_bets := aset s.slot_bets user_id ((alookup s.slot_bets user_id).getD 0 + amount) }
    user_id

/-- `make_bet`: exactly 4 tokens; `int(amount)`, positivity, registration,
game-type validation (in source order); then the win/loss resolution, and for
SLOT bets the wager accumulation plus campaign evaluation. -/
def make_bet (s : CasinoSystem) (transaction : String) :
    CasinoSystem × Option String :=
  match pysplit transaction with
  | [_, user_id, game, amountStr] =>
    match pyParseInt amountStr with
    | none => (s, some "ValueError: invalid literal for int()")
    | some amount =>
      if amount ≤ 0 then (s, some "Bet amount must be positive")
      else if ! amem s.balances user_id then (s, some "User not registered")
      else if ! (game = "SLOT" ∨ game = "CASINO" ∨ game = "SPORT" : Bool) then
        (s, some "Invalid game type, should be one of SLOT, CASINO, SPORT")
      else if game = "SLOT" then
        add_slot_and_check (resolve_bet s user_id amount) user_id amount
      else (resolve_bet s user_id amount, none)
  | _ => (s, some "Invalid number of parameters for bet. Format: bet <user_id> <game> <amount>")

/-- `get_balance`: exactly 2 tokens, registered user, then append the balance
rendered as text to the output log. -/
def get_balance (s : CasinoSystem) (transaction : String) :
    CasinoSystem × Option String :=
  match pysplit transaction with
  | [_, user_id] =>
    match alookup s.balances user_id with
    | none => (s, some "User not registered")
    | some b => ({ s with outputs := s.outputs ++ [toString b] }, none)
  | _ => (s, some "Invalid number of parameters for getting balance. Format: balance <user_id>")

/-- The dispatch of `make_transactions` for one line: `str.startswith` tests
against the five keywords in source order; a line matching none of them is
skipped silently. -/
def step (s : CasinoSystem) (transaction : String) : CasinoSystem × Option String :=
  if pystartswith transaction "register" then make_registration s transaction
  else if pystartswith transaction "addscenario" then add_scenario s transaction
  else if pystartswith transaction "deposit" then make_deposit s transaction
  else if pystartswith transaction "bet" then make_bet s transaction
  else if pystartswith transaction "balance" then get_balance s transaction
  else (s, none)

/-- The loop of `make_transactions`: process lines in order; the first raise
aborts the run, keeping the state reached at the raise point. -/
def runFrom (s : CasinoSystem) : List String → CasinoSystem × Option String
  | [] => (s, none)
  | t :: ts =>
    match step s t with
    | (s', none) => runFrom s' ts
    | (s', some e) => (s', some e)

/-- `make_transactions` on the stripped lines of the input (the file adapter
yields `line.strip()` for each line). -/
def make_transactions (s : CasinoSystem) (lines : List String) :
    CasinoSystem × Option String :=
  runFrom s (lines.map pystrip)

/-- A whole run from the initial state. -/
def run (lines : List String) : CasinoSystem × Option String :=
  make_transactions initCasino lines

example : pysplit "bet  u1 CASINO 50" = ["bet", "u1", "CASINO", "50"] := by rfl
example : pyParseInt "160" = some 160 := by rfl
example : pyParseInt "-7" = some (-7) := by rfl
example : pyParseInt "7x" = none := by rfl
example : pyParseInt "" = none := by rfl
example :
    (run ["register u1", "addscenario 10 20 30", "deposit u1 100",
          "bet u1 SLOT 50", "balance u1"]).1.outputs = ["160"] := by rfl

/-! ## Sanity examples -/

example : pyParseInt "-7" = some (-7) := by rfl
example : pyParseInt "7x" = none := by rfl
example : pystartswith "registerme u9" "register" = true := by rfl
example : pystartswith "foo 1" "register" = false := by rfl

/-! ## Claims C1 and C2: tier advancement

In the source, `campaign[:-1].append('2')` (and likewise `'3'`) builds a
copy of the campaign list, appends the new marker to the copy and discards
it, so the stored tier marker never advances past `'1'`. -/

/-- Claim C1: on this run, u1 is assigned the scenario at the fourth line
(balance 760); the claim expects the fifth line's evaluation to pay prize2
(20) once and advance the tier marker to 2, but the marker stays "1", so the
sixth line pays prize2 again: final balance 800 with campaign still
["10", "20", "30", "1"]. -/
theorem claim_C1_prize2_paid_twice_marker_stuck :
    run ["register u1", "addscenario 10 20 30", "deposit u1 500",
         "bet u1 SLOT 250", "bet u1 SLOT 1", "bet u1 SLOT 1"] =
      ({ balances := [("u1", 800)], outputs := [], win := false,
         unused_scenarios := [], deposits := [("u1", 500)],
         slot_bets := [("u1", 252)],
         user_campaigns := [("u1", ["10", "20", "30", "1"])] }, none) := by
  rfl

/-- A state whose user "u1" holds a campaign with tier marker "2" and meets
the tier-2 thresholds (deposits 1000, SLOT wagers 500). -/
def tier2State : CasinoSystem :=
  { initCasino with
      balances := [("u1", 0)]
      deposits := [("u1", 1000)]
      slot_bets := [("u1", 500)]
      user_campaigns := [("u1", ["10", "20", "30", "2"])] }

/-- Claim C2: from a tier-marker-2 state at the 1000/500 thresholds, one
evaluator invocation pays prize3 (30) but leaves the marker at "2" instead of
the terminal "3", and a second invocation pays prize3 again (balance 60)
instead of being a no-op. -/
theorem claim_C2_prize3_paid_twice_marker_stuck :
    check_campaign_status tier2State "u1" =
      ({ tier2State with balances := [("u1", 30)] }, none) ∧
    check_campaign_status { tier2State with balances := [("u1", 30)] } "u1" =
      ({ tier2State with balances := [("u1", 60)] }, none) :=
  ⟨rfl, rfl⟩

/-! ## Claim C3: dispatch is by line prefix, not by first token -/

/-- Claim C3 counterexample: the line "registerme u9" has first token
"registerme", which is none of the five keywords, yet the dispatcher matches
it via `startswith('register')` and registers user "u9" — the processor state
changes, refuting the claim that such lines leave the state unchanged. -/
theorem claim_C3_counterexample :
    (pysplit "registerme u9").head? = some "registerme" ∧
    "registerme" ∉ ["register", "addscenario", "deposit", "bet", "balance"] ∧
    step initCasino "registerme u9" =
      ({ initCasino with balances := [("u9", 0)] }, none) ∧
    ({ initCasino with balances := [("u9", 0)] } : CasinoSystem) ≠ initCasino := by
  refine ⟨rfl, by decide, rfl, ?_⟩
  intro h
  have hb := congrArg CasinoSystem.balances h
  simp [initCasino] at hb

/-- Claim C3 (amended): a line that does not start with any of the five
keywords as a string prefix is silently ignored: the state is unchanged,
nothing is appended to the output log, and no error is raised. -/
theorem claim_C3_unmatched_line_ignored (s : CasinoSystem) (t : String)
    (h1 : pystartswith t "register" = false)
    (h2 : pystartswith t "addscenario" = false)
    (h3 : pystartswith t "deposit" = false)
    (h4 : pystartswith t "bet" = false)
    (h5 : pystartswith t "balance" = false) :
    step s t = (s, none) := by
  simp [step, h1, h2, h3, h4, h5]

/-- Witness for the amended claim C3 at the concrete line "foo 1". -/
theorem claim_C3_unmatched_line_ignored_witness :
    pystartswith "foo 1" "register" = false ∧
    pystartswith "foo 1" "addscenario" = false ∧
    pystartswith "foo 1" "deposit" = false ∧
    pystartswith "foo 1" "bet" = false ∧
    pystartswith "foo 1" "balance" = false ∧
    step initCasino "foo 1" = (initCasino, none) :=
  ⟨rfl, rfl, rfl, rfl, rfl,
    claim_C3_unmatched_line_ignored initCasino "foo 1" rfl rfl rfl rfl rfl⟩

/-! ## Claim C4: the example run -/

/-- Claim C4: the example command sequence succeeds and produces exactly the
output ["160"]: deposit to 100, coverable SLOT bet wins to 150 (flag toggles
to "loss"), the evaluator assigns the queued scenario at tier 1 and pays
prize1 = 10 for balance 160, which the query records. -/
theorem claim_C4_example_run_outputs_160 :
    run ["register u1", "addscenario 10 20 30", "deposit u1 100",
         "bet u1 SLOT 50", "balance u1"] =
      ({ balances := [("u1", 160)], outputs := ["160"], win := false,
         unused_scenarios := [], deposits := [("u1", 100)],
         slot_bets := [("u1", 50)],
         user_campaigns := [("u1", ["10", "20", "30", "1"])] }, none) := by
  rfl

/-! ## Claim C5: empty scenario queue at tier-1 eligibility raises -/

/-- Claim C5: whenever the evaluator runs for a user with a deposits entry of
at least 100 and a slot-bets entry of at least 50, no assigned campaign, and
an empty scenario queue, it raises the empty-deque error (with the state kept
as it was) rather than silently returning. -/
theorem claim_C5_empty_queue_raises (s : CasinoSystem) (u : String) (d sl : Int)
    (hd : alookup s.deposits u = some d) (hd100 : d ≥ 100)
    (hs : alookup s.slot_bets u = some sl) (hs50 : sl ≥ 50)
    (hc : alookup s.user_campaigns u = none)
    (hq : s.unused_scenarios = []) :
    check_campaign_status s u = (s, some "IndexError: pop from an empty deque") := by
  simp [check_campaign_status, amem, hd, hs, hc, hq, hd100, hs50]

/-- Witness for claim C5: a concrete state at the thresholds with an empty
queue. -/
theorem claim_C5_empty_queue_raises_witness :
    check_campaign_status
        { initCasino with
            balances := [("u1", 100)]
            deposits := [("u1", 100)]
            slot_bets := [("u1", 50)] } "u1" =
      ({ initCasino with
           balances := [("u1", 100)]
           deposits := [("u1", 100)]
           slot_bets := [("u1", 50)] },
        some "IndexError: pop from an empty deque") :=
  claim_C5_empty_queue_raises _ "u1" 100 50 rfl (by decide) rfl (by decide) rfl rfl

/-! ## Association-list lemmas -/

theorem alookup_mem {α : Type} {d : List (String × α)} {k : String} {v : α}
    (h : alookup d k = some v) : (k, v) ∈ d := by
  induction d with
  | nil => simp [alookup] at h
  | cons p rest ih =>
    obtain ⟨k', w⟩ := p
    by_cases hk : k' = k
    · subst hk
      simp [alookup] at h
      simp [h]
    · simp [alookup, hk] at h
      exact List.mem_cons_of_mem _ (ih h)

theorem aset_mem {α : Type} {d : List (String × α)} {k : String} {v : α}
    {p : String × α} (h : p ∈ aset d k v) : p = (k, v) ∨ p ∈ d := by
  induction d with
  | nil => simpa [aset] using h
  | cons q rest ih =>
    obtain ⟨k', w⟩ := q
    by_cases hk : k' = k
    · subst hk
      simp [aset] at h
      rcases h with h | h
      · exact Or.inl (by simp [h])
      · exact Or.inr (List.mem_cons_of_mem _ h)
    · simp [aset, hk] at h
      rcases h with h | h
      · exact Or.inr (by simp [h])
      · rcases ih h with h' | h'
        · exact Or.inl h'
        · exact Or.inr (List.mem_cons_of_mem _ h')

theorem aset_eq_of_alookup {α : Type} {d : List (String × α)} {k : String} {v : α}
    (h : alookup d k = some v) : aset d k v = d := by
  induction d with
  | nil => simp [alookup] at h
  | cons q rest ih =>
    obtain ⟨k', w⟩ := q
    by_cases hk : k' = k
    · subst hk
      simp [alookup] at h
      simp [aset, h]
    · simp [alookup, hk] at h
      simp [aset, hk, ih h]

theorem aset_append_of_alookup_none {α : Type} {d : List (String × α)} {k : String}
    (v : α) (h : alookup d k = none) : aset d k v = d ++ [(k, v)] := by
  induction d with
  | nil => simp [aset]
  | cons q rest ih =>
    obtain ⟨k', w⟩ := q
    by_cases hk : k' = k
    · subst hk
      simp [alookup] at h
    · simp [alookup, hk] at h
      simp [aset, hk, ih h]

theorem alookup_append_of_some {α : Type} {d l : List (String × α)} {k : String} {v : α}
    (h : alookup d k = some v) : alookup (d ++ l) k = some v := by
  induction d with
  | nil => simp [alookup] at h
  | cons q rest ih =>
    obtain ⟨k', w⟩ := q
    by_cases hk : k' = k
    · subst hk
      simp [alookup] at h ⊢
      exact h
    · simp [alookup, hk] at h ⊢
      exact ih h

/-! ## The campaign evaluator and the flag -/

theorem pay_prize1_win (s : CasinoSystem) (u : String) (c : List String) :
    (pay_prize1 s u c).1.win = s.win := by
  unfold pay_prize1
  repeat' split
  all_goals rfl

theorem pay_tier_prize_win (s : CasinoSystem) (u : String) (c : List String) (k : Nat) :
    (pay_tier_prize s u c k).1.win = s.win := by
  unfold pay_tier_prize
  repeat' split
  all_goals rfl

theorem try_tier1_to_2_win (s : CasinoSystem) (u : String) (c : List String) :
    (try_tier1_to_2 s u c).1.win = s.win := by
  unfold try_tier1_to_2
  repeat' split
  all_goals simp [pay_tier_prize_win]

theorem check_campaign_status_win (s : CasinoSystem) (u : String) :
    (check_campaign_status s u).1.win = s.win := by
  unfold check_campaign_status
  repeat' split
  all_goals simp [pay_prize1_win, pay_tier_prize_win, try_tier1_to_2_win]

theorem make_registration_win (s : CasinoSystem) (t : String) :
    (make_registration s t).1.win = s.win := by
  unfold make_registration
  repeat' split
  all_goals rfl

theorem add_scenario_win (s : CasinoSystem) (t : String) :
    (add_scenario s t).1.win = s.win := by
  unfold add_scenario
  repeat' split
  all_goals rfl

theorem make_deposit_win (s : CasinoSystem) (t : String) :
    (make_deposit s t).1.win = s.win := by
  unfold make_deposit
  repeat' split
  all_goals simp [check_campaign_status_win]

theorem get_balance_win (s : CasinoSystem) (t : String) :
    (get_balance s t).1.win = s.win := by
  unfold get_balance
  repeat' split
  all_goals rfl

theorem add_slot_and_check_win (s : CasinoSystem) (u : String) (a : Int) :
    (add_slot_and_check s u a).1.win = s.win := by
  unfold add_slot_and_check
  simp [check_campaign_status_win]

theorem resolve_bet_win (s : CasinoSystem) (u : String) (a b : Int)
    (hb : alookup s.balances u = some b) :
    (resolve_bet s u a).win = (if a ≤ b then ! s.win else s.win) := by
  simp only [resolve_bet, hb]
  split
  · rfl
  · rfl

theorem make_bet_win (s : CasinoSystem) (t t0 u g astr : String) (a b : Int)
    (hsplit : pysplit t = [t0, u, g, astr])
    (hparse : pyParseInt astr = some a)
    (hpos : 0 < a)
    (hbal : alookup s.balances u = some b)
    (hg : g = "SLOT" ∨ g = "CASINO" ∨ g = "SPORT") :
    (make_bet s t).1.win = (if a ≤ b then ! s.win else s.win) := by
  have hmem : amem s.balances u = true := by simp [amem, hbal]
  have hnle : ¬ a ≤ 0 := by omega
  rcases hg with hg | hg | hg <;> subst hg <;>
    simp [make_bet, hsplit, hparse, hmem, hnle, add_slot_and_check_win,
      resolve_bet_win s u a b hbal]

theorem step_nonbet_win (s : CasinoSystem) (t : String)
    (h : pystartswith t "bet" = false) : (step s t).1.win = s.win := by
  unfold step
  repeat' split
  all_goals simp_all [make_registration_win, add_scenario_win, make_deposit_win,
    get_balance_win]

/-! ## Claim C6: the alternating outcome flag -/

/-- Claim C6: the flag is a single process-wide boolean: it starts at "win"
(`true`) in the initial state; a bet on a registered user with a positive
parsed amount and a valid game type toggles it exactly once when and only
when the stake is coverable (amount ≤ the user's balance at evaluation time);
the other four handlers never change it; and a dispatched line that is not a
bet line never changes it. -/
theorem claim_C6_flag_behaviour :
    initCasino.win = true ∧
    (∀ (s : CasinoSystem) (t t0 u g astr : String) (a b : Int),
        pysplit t = [t0, u, g, astr] → pyParseInt astr = some a → 0 < a →
        alookup s.balances u = some b →
        (g = "SLOT" ∨ g = "CASINO" ∨ g = "SPORT") →
        (make_bet s t).1.win = (if a ≤ b then ! s.win else s.win)) ∧
    (∀ (s : CasinoSystem) (t : String), (make_registration s t).1.win = s.win) ∧
    (∀ (s : CasinoSystem) (t : String), (add_scenario s t).1.win = s.win) ∧
    (∀ (s : CasinoSystem) (t : String), (make_deposit s t).1.win = s.win) ∧
    (∀ (s : CasinoSystem) (t : String), (get_balance s t).1.win = s.win) ∧
    (∀ (s : CasinoSystem) (t : String), pystartswith t "bet" = false →
        (step s t).1.win = s.win) :=
  ⟨rfl, make_bet_win, make_registration_win, add_scenario_win, make_deposit_win,
    get_balance_win, step_nonbet_win⟩

/-- A registered user "u" with balance 100, for concrete bet evaluations. -/
def betDemoState : CasinoSystem := { initCasino with balances := [("u", 100)] }

/-- Witness for claim C6 at a concrete coverable CASINO bet. -/
theorem claim_C6_flag_behaviour_witness :
    pysplit "bet u CASINO 50" = ["bet", "u", "CASINO", "50"] ∧
    pyParseInt "50" = some 50 ∧
    (0 : Int) < 50 ∧
    alookup betDemoState.balances "u" = some 100 ∧
    (make_bet betDemoState "bet u CASINO 50").1.win =
      (if (50 : Int) ≤ 100 then ! betDemoState.win else betDemoState.win) :=
  ⟨rfl, rfl, by decide, rfl,
    claim_C6_flag_behaviour.2.1 betDemoState "bet u CASINO 50" "bet" "u" "CASINO" "50"
      50 100 rfl rfl (by decide) rfl (Or.inr (Or.inl rfl))⟩

/-! ## Claim C7: uncoverable non-SLOT bets are complete no-ops -/

/-- Claim C7: a well-formed bet on a registered user with game CASINO or
SPORT and a positive amount strictly greater than the user's balance succeeds
and returns the state completely unchanged — balances, flag, totals, queue,
campaigns and output log. -/
theorem claim_C7_uncoverable_nonslot_bet_noop (s : CasinoSystem)
    (t t0 u g astr : String) (a b : Int)
    (hsplit : pysplit t = [t0, u, g, astr])
    (hparse : pyParseInt astr = some a)
    (hpos : 0 < a)
    (hbal : alookup s.balances u = some b)
    (hover : b < a)
    (hg : g = "CASINO" ∨ g = "SPORT") :
    make_bet s t = (s, none) := by
  have hmem : amem s.balances u = true := by simp [amem, hbal]
  have hnle : ¬ a ≤ 0 := by omega
  have hres : resolve_bet s u a = s := by
    simp only [resolve_bet, hbal]
    rw [if_neg (by omega : ¬ a ≤ b)]
  rcases hg with hg | hg <;> subst hg <;>
    simp [make_bet, hsplit, hparse, hmem, hnle, hres]

/-- Witness for claim C7: the spec's own edge example, a CASINO bet of
1000000 against a balance of 100. -/
theorem claim_C7_uncoverable_nonslot_bet_noop_witness :
    pysplit "bet u CASINO 1000000" = ["bet", "u", "CASINO", "1000000"] ∧
    pyParseInt "1000000" = some 1000000 ∧
    (0 : Int) < 1000000 ∧
    alookup betDemoState.balances "u" = some 100 ∧
    (100 : Int) < 1000000 ∧
    make_bet betDemoState "bet u CASINO 1000000" = (betDemoState, none) :=
  ⟨rfl, rfl, by decide, rfl, by decide,
    claim_C7_uncoverable_nonslot_bet_noop betDemoState "bet u CASINO 1000000"
      "bet" "u" "CASINO" "1000000" 1000000 100 rfl rfl (by decide) rfl (by decide)
      (Or.inl rfl)⟩

/-! ## Claim C8: FIFO scenario assignment and campaign permanence -/

theorem pay_prize1_queue (s : CasinoSystem) (u : String) (c : List String) :
    (pay_prize1 s u c).1.unused_scenarios = s.unused_scenarios ∧
    (pay_prize1 s u c).1.user_campaigns = s.user_campaigns := by
  unfold pay_prize1
  repeat' split
  all_goals exact ⟨rfl, rfl⟩

theorem pay_tier_prize_queue (s : CasinoSystem) (u : String) (c : List String) (k : Nat)
    (hc : alookup s.user_campaigns u = some c) :
    (pay_tier_prize s u c k).1.unused_scenarios = s.unused_scenarios ∧
    (pay_tier_prize s u c k).1.user_campaigns = s.user_campaigns := by
  unfold pay_tier_prize
  repeat' split
  all_goals refine ⟨rfl, ?_⟩
  all_goals first
    | rfl
    | exact aset_eq_of_alookup hc

theorem try_tier1_to_2_queue (s : CasinoSystem) (u : String) (c : List String)
    (hc : alookup s.user_campaigns u = some c) :
    (try_tier1_to_2 s u c).1.unused_scenarios = s.unused_scenarios ∧
    (try_tier1_to_2 s u c).1.user_campaigns = s.user_campaigns := by
  unfold try_tier1_to_2
  repeat' split
  all_goals first
    | exact ⟨rfl, rfl⟩
    | exact pay_tier_prize_queue s u c 1 hc

/-- One evaluator invocation either leaves the scenario queue and the
campaign dict unchanged, or (campaign creation) pops exactly the head of the
queue and appends it, marked with "1", as the campaign of the one evaluated
user, who had none before. -/
theorem check_campaign_cases (s : CasinoSystem) (u : String) :
    ((check_campaign_status s u).1.unused_scenarios = s.unused_scenarios ∧
     (check_campaign_status s u).1.user_campaigns = s.user_campaigns) ∨
    (∃ sc rest, s.unused_scenarios = sc :: rest ∧
      alookup s.user_campaigns u = none ∧
      (check_campaign_status s u).1.unused_scenarios = rest ∧
      (check_campaign_status s u).1.user_campaigns =
        s.user_campaigns ++ [(u, sc ++ ["1"])]) := by
  unfold check_campaign_status
  split
  · split
    · next hc =>
      split
      · split
        · exact Or.inl ⟨rfl, rfl⟩
        · next sc rest heq =>
          refine Or.inr ⟨sc, rest, heq, hc, ?_, ?_⟩
          · exact (pay_prize1_queue _ u _).1
          · rw [(pay_prize1_queue _ u _).2]
            exact aset_append_of_alookup_none _ hc
      · exact Or.inl ⟨rfl, rfl⟩
    · next campaign hc =>
      split
      · split
        · exact Or.inl ⟨rfl, rfl⟩
        · split
          · exact Or.inl (pay_tier_prize_queue s u campaign 2 hc)
          · exact Or.inl (try_tier1_to_2_queue s u campaign hc)
      · exact Or.inl (try_tier1_to_2_queue s u campaign hc)
  · exact Or.inl ⟨rfl, rfl⟩

/-- Transfer of `check_campaign_cases` through a state `S` that agrees with
`s` on the queue and the campaign dict (the evaluator is always invoked on
such a state by the deposit and bet handlers). -/
theorem check_campaign_cases_of_eq (s S : CasinoSystem) (u : String)
    (hq : S.unused_scenarios = s.unused_scenarios)
    (huc : S.user_campaigns = s.user_campaigns) :
    ((check_campaign_status S u).1.unused_scenarios = s.unused_scenarios ∧
     (check_campaign_status S u).1.user_campaigns = s.user_campaigns) ∨
    (∃ u' sc rest, s.unused_scenarios = sc :: rest ∧
      alookup s.user_campaigns u' = none ∧
      (check_campaign_status S u).1.unused_scenarios = rest ∧
      (check_campaign_status S u).1.user_campaigns =
        s.user_campaigns ++ [(u', sc ++ ["1"])]) := by
  rcases check_campaign_cases S u with ⟨h1, h2⟩ | ⟨sc, rest, h0, hc, h1, h2⟩
  · exact Or.inl ⟨h1.trans hq, h2.trans huc⟩
  · refine Or.inr ⟨u, sc, rest, ?_, ?_, h1, ?_⟩
    · rw [← hq]; exact h0
    · rw [← huc]; exact hc
    · rw [huc] at h2; exact h2

theorem make_registration_queue (s : CasinoSystem) (t : String) :
    (make_registration s t).1.unused_scenarios = s.unused_scenarios ∧
    (make_registration s t).1.user_campaigns = s.user_campaigns := by
  unfold make_registration
  repeat' split
  all_goals exact ⟨rfl, rfl⟩

theorem get_balance_queue (s : CasinoSystem) (t : String) :
    (get_balance s t).1.unused_scenarios = s.unused_scenarios ∧
    (get_balance s t).1.user_campaigns = s.user_campaigns := by
  unfold get_balance
  repeat' split
  all_goals exact ⟨rfl, rfl⟩

theorem add_scenario_cases (s : CasinoSystem) (t : String) :
    ((add_scenario s t).1.unused_scenarios = s.unused_scenarios ∧
     (add_scenario s t).1.user_campaigns = s.user_campaigns) ∨
    (∃ sc, (add_scenario s t).1.unused_scenarios = s.unused_scenarios ++ [sc] ∧
      (add_scenario s t).1.user_campaigns = s.user_campaigns) := by
  unfold add_scenario
  split
  · exact Or.inr ⟨_, rfl, rfl⟩
  · exact Or.inl ⟨rfl, rfl⟩

theorem resolve_bet_queue (s : CasinoSystem) (u : String) (a : Int) :
    (resolve_bet s u a).unused_scenarios = s.unused_scenarios ∧
    (resolve_bet s u a).user_campaigns = s.user_campaigns := by
  unfold resolve_bet
  repeat' split
  all_goals exact ⟨rfl, rfl⟩

theorem make_deposit_cases (s : CasinoSystem) (t : String) :
    ((make_deposit s t).1.unused_scenarios = s.unused_scenarios ∧
     (make_deposit s t).1.user_campaigns = s.user_campaigns) ∨
    (∃ u' sc rest, s.unused_scenarios = sc :: rest ∧
      alookup s.user_campaigns u' = none ∧
      (make_deposit s t).1.unused_scenarios = rest ∧
      (make_deposit s t).1.user_campaigns =
        s.user_campaigns ++ [(u', sc ++ ["1"])]) := by
  unfold make_deposit
  repeat' split
  all_goals first
    | exact Or.inl ⟨rfl, rfl⟩
    | exact check_campaign_cases_of_eq s _ _ rfl rfl

theorem make_bet_cases (s : CasinoSystem) (t : String) :
    ((make_bet s t).1.unused_scenarios = s.unused_scenarios ∧
     (make_bet s t).1.user_campaigns = s.user_campaigns) ∨
    (∃ u' sc rest, s.unused_scenarios = sc :: rest ∧
      alookup s.user_campaigns u' = none ∧
      (make_bet s t).1.unused_scenarios = rest ∧
      (make_bet s t).1.user_campaigns =
        s.user_campaigns ++ [(u', sc ++ ["1"])]) := by
  unfold make_bet add_slot_and_check
  repeat' split
  all_goals first
    | exact Or.inl ⟨rfl, rfl⟩
    | exact Or.inl ⟨(resolve_bet_queue _ _ _).1, (resolve_bet_queue _ _ _).2⟩
    | exact check_campaign_cases_of_eq s _ _ (resolve_bet_queue _ _ _).1
        (resolve_bet_queue _ _ _).2

/-- One dispatched line either leaves queue and campaigns unchanged, or
appends one scenario at the back of the queue (addscenario), or pops exactly
the head of the queue and assigns it, marked "1", to a single user who had no
campaign. -/
theorem step_queue_cases (s : CasinoSystem) (t : String) :
    ((step s t).1.unused_scenarios = s.unused_scenarios ∧
     (step s t).1.user_campaigns = s.user_campaigns) ∨
    (∃ sc, (step s t).1.unused_scenarios = s.unused_scenarios ++ [sc] ∧
      (step s t).1.user_campaigns = s.user_campaigns) ∨
    (∃ u' sc rest, s.unused_scenarios = sc :: rest ∧
      alookup s.user_campaigns u' = none ∧
      (step s t).1.unused_scenarios = rest ∧
      (step s t).1.user_campaigns =
        s.user_campaigns ++ [(u', sc ++ ["1"])]) := by
  unfold step
  repeat' split
  · exact Or.inl (make_registration_queue s t)
  · rcases add_scenario_cases s t with h | h
    · exact Or.inl h
    · exact Or.inr (Or.inl h)
  · rcases make_deposit_cases s t with h | h
    · exact Or.inl h
    · exact Or.inr (Or.inr h)
  · rcases make_bet_cases s t with h | h
    · exact Or.inl h
    · exact Or.inr (Or.inr h)
  · exact Or.inl (get_balance_queue s t)
  · exact Or.inl ⟨rfl, rfl⟩

theorem step_campaign_permanent (s : CasinoSystem) (t : String) (u : String)
    (c : List String) (hc : alookup s.user_campaigns u = some c) :
    alookup (step s t).1.user_campaigns u = some c := by
  rcases step_queue_cases s t with ⟨_, h⟩ | ⟨sc, _, h⟩ | ⟨u', sc, rest, _, _, _, h⟩
  · rw [h]; exact hc
  · rw [h]; exact hc
  · rw [h]; exact alookup_append_of_some hc

theorem runFrom_campaign_permanent (cmds : List String) : ∀ (s : CasinoSystem)
    (u : String) (c : List String), alookup s.user_campaigns u = some c →
    alookup (runFrom s cmds).1.user_campaigns u = some c := by
  induction cmds with
  | nil => intro s u c hc; exact hc
  | cons t ts ih =>
    intro s u c hc
    unfold runFrom
    rcases hstep : step s t with ⟨s', e⟩
    have hp : alookup s'.user_campaigns u = some c := by
      have h := step_campaign_permanent s t u c hc
      rw [hstep] at h
      exact h
    cases e with
    | none => exact ih s' u c hp
    | some err => exact hp

/-- Claim C8: (i) every dispatched line either leaves the scenario queue and
the campaign dict unchanged, appends one scenario at the back of the queue,
or pops exactly the oldest scenario from the front of the queue and assigns
it (marked "1") to a single user who had no campaign — so scenarios are
consumed in FIFO load order, a dequeued scenario goes to exactly one user and
leaves the queue for good; and (ii) over any run, an assigned campaign is
never removed or replaced, so each user is assigned at most one scenario. -/
theorem claim_C8_fifo_and_permanence :
    (∀ (s : CasinoSystem) (t : String),
      ((step s t).1.unused_scenarios = s.unused_scenarios ∧
       (step s t).1.user_campaigns = s.user_campaigns) ∨
      (∃ sc, (step s t).1.unused_scenarios = s.unused_scenarios ++ [sc] ∧
        (step s t).1.user_campaigns = s.user_campaigns) ∨
      (∃ u' sc rest, s.unused_scenarios = sc :: rest ∧
        alookup s.user_campaigns u' = none ∧
        (step s t).1.unused_scenarios = rest ∧
        (step s t).1.user_campaigns = s.user_campaigns ++ [(u', sc ++ ["1"])])) ∧
    (∀ (cmds : List String) (s : CasinoSystem) (u : String) (c : List String),
      alookup s.user_campaigns u = some c →
      alookup (runFrom s cmds).1.user_campaigns u = some c) :=
  ⟨step_queue_cases, runFrom_campaign_permanent⟩

/-- A state with one assigned campaign, for the permanence witness. -/
def c8DemoState : CasinoSystem :=
  { initCasino with
      balances := [("u", 0)]
      user_campaigns := [("u", ["9", "8", "7", "1"])] }

/-- Witness for claim C8: the campaign of "u" survives a run. -/
theorem claim_C8_fifo_and_permanence_witness :
    alookup c8DemoState.user_campaigns "u" = some ["9", "8", "7", "1"] ∧
    alookup (runFrom c8DemoState ["balance u", "deposit u 5"]).1.user_campaigns "u" =
      some ["9", "8", "7", "1"] :=
  ⟨rfl, claim_C8_fifo_and_permanence.2 ["balance u", "deposit u 5"] c8DemoState "u"
    ["9", "8", "7", "1"] rfl⟩

/-! ## Claim C9: balances stay non-negative when all prizes are non-negative -/

/-- A token that Python would parse as a non-negative integer. -/
def nonnegTok (tok : String) : Bool :=
  match pyParseInt tok with
  | some v => decide (0 ≤ v)
  | none => false

theorem nonnegTok_le {tok : String} {v : Int} (h : nonnegTok tok = true)
    (hp : pyParseInt tok = some v) : 0 ≤ v := by
  unfold nonnegTok at h
  rw [hp] at h
  exact of_decide_eq_true h

/-- Every balance in the ledger is non-negative. -/
def BalancesNonneg (s : CasinoSystem) : Prop := ∀ p ∈ s.balances, 0 ≤ p.2

/-- Every token of the list parses as a non-negative integer. -/
def TokensOk (l : List String) : Prop := ∀ tok ∈ l, nonnegTok tok = true

/-- Every queued scenario and every assigned campaign holds only tokens that
parse as non-negative integers. -/
def PrizesOk (s : CasinoSystem) : Prop :=
  (∀ sc ∈ s.unused_scenarios, TokensOk sc) ∧ (∀ p ∈ s.user_campaigns, TokensOk p.2)

/-- The run invariant for claim C9. -/
def RunInv (s : CasinoSystem) : Prop := BalancesNonneg s ∧ PrizesOk s

theorem BalancesNonneg_aset {d : List (String × Int)} (hd : ∀ p ∈ d, 0 ≤ p.2)
    {k : String} {v : Int} (hv : 0 ≤ v) : ∀ p ∈ aset d k v, 0 ≤ p.2 := by
  intro p hp
  rcases aset_mem hp with h | h
  · rw [h]
    exact hv
  · exact hd p h

theorem alookup_getD_nonneg {d : List (String × Int)} (hd : ∀ p ∈ d, 0 ≤ p.2)
    (k : String) : 0 ≤ (alookup d k).getD 0 := by
  cases h : alookup d k with
  | none => simp
  | some v => simpa using hd (k, v) (alookup_mem h)

theorem mem_of_head?_eq_some {α : Type} {l : List α} {a : α}
    (h : l.head? = some a) : a ∈ l := by
  obtain ⟨ys, rfl⟩ := List.head?_eq_some_iff.1 h
  exact List.mem_cons_self a ys

theorem tokensOk_append_marker {sc : List String} (h : TokensOk sc) :
    TokensOk (sc ++ ["1"]) := by
  intro tok htok
  rcases List.mem_append.1 htok with h' | h'
  · exact h tok h'
  · simp at h'
    subst h'
    rfl

theorem pay_prize1_inv (s1 : CasinoSystem) (u : String) (c : List String)
    (hs : RunInv s1) (hc : TokensOk c) : RunInv (pay_prize1 s1 u c).1 := by
  unfold pay_prize1
  split
  · exact hs
  next b hb =>
    split
    · exact hs
    next p1str hp1 =>
      split
      · exact hs
      next p1 hpp =>
        refine ⟨?_, hs.2⟩
        exact BalancesNonneg_aset hs.1
          (add_nonneg (hs.1 (u, b) (alookup_mem hb))
            (nonnegTok_le (hc p1str (mem_of_head?_eq_some hp1)) hpp))

theorem pay_tier_prize_inv (s : CasinoSystem) (u : String) (campaign : List String)
    (k : Nat) (hs : RunInv s) (hcamp : TokensOk campaign) :
    RunInv (pay_tier_prize s u campaign k).1 := by
  unfold pay_tier_prize
  split
  · exact hs
  next b hb =>
    split
    · exact hs
    next pstr hpstr =>
      split
      · exact hs
      next p hp =>
        refine ⟨?_, hs.2.1, ?_⟩
        · exact BalancesNonneg_aset hs.1
            (add_nonneg (hs.1 (u, b) (alookup_mem hb))
              (nonnegTok_le (hcamp pstr (List.get?_mem hpstr)) hp))
        · intro q hq
          rcases aset_mem hq with h | h
          · rw [h]
            exact hcamp
          · exact hs.2.2 q h

theorem try_tier1_to_2_inv (s : CasinoSystem) (u : String) (campaign : List String)
    (hs : RunInv s) (hcamp : TokensOk campaign) :
    RunInv (try_tier1_to_2 s u campaign).1 := by
  unfold try_tier1_to_2
  repeat' split
  all_goals first
    | exact hs
    | exact pay_tier_prize_inv s u campaign 1 hs hcamp

theorem check_campaign_status_inv (s : CasinoSystem) (u : String) (hs : RunInv s) :
    RunInv (check_campaign_status s u).1 := by
  unfold check_campaign_status
  split
  · split
    · next hcnone =>
      split
      · split
        · exact hs
        · next sc rest heq =>
          have hsc : TokensOk sc := hs.2.1 sc (by rw [heq]; exact List.mem_cons_self _ _)
          apply pay_prize1_inv
          · refine ⟨hs.1, ?_, ?_⟩
            · intro sc' h'
              exact hs.2.1 sc' (by rw [heq]; exact List.mem_cons_of_mem _ h')
            · intro q hq
              rcases aset_mem hq with h | h
              · rw [h]
                exact tokensOk_append_marker hsc
              · exact hs.2.2 q h
          · exact tokensOk_append_marker hsc
      · exact hs
    · next campaign hcs =>
      have hcamp : TokensOk campaign := hs.2.2 (u, campaign) (alookup_mem hcs)
      split
      · split
        · exact hs
        · split
          · exact pay_tier_prize_inv s u campaign 2 hs hcamp
          · exact try_tier1_to_2_inv s u campaign hs hcamp
      · exact try_tier1_to_2_inv s u campaign hs hcamp
  · exact hs

theorem make_registration_inv (s : CasinoSystem) (t : String) (hs : RunInv s) :
    RunInv (make_registration s t).1 := by
  unfold make_registration
  repeat' split
  all_goals first
    | exact hs
    | exact ⟨BalancesNonneg_aset hs.1 le_rfl, hs.2⟩

theorem add_scenario_inv (s : CasinoSystem) (t : String) (hs : RunInv s)
    (h : ∀ tok ∈ (pysplit t).drop 1, nonnegTok tok = true) :
    RunInv (add_scenario s t).1 := by
  unfold add_scenario
  split
  next x p1 p2 p3 heq =>
    refine ⟨hs.1, ?_, hs.2.2⟩
    intro sc hsc
    rcases List.mem_append.1 hsc with h' | h'
    · exact hs.2.1 sc h'
    · simp at h'
      subst h'
      intro tok htok
      apply h
      rw [heq]
      exact htok
  next => exact hs

theorem resolve_bet_inv (s : CasinoSystem) (u : String) (a : Int)
    (hs : RunInv s) (ha : 0 < a) : RunInv (resolve_bet s u a) := by
  unfold resolve_bet
  split
  next b hb =>
    split
    next hab =>
      refine ⟨?_, hs.2⟩
      have hb0 : (0 : Int) ≤ b := hs.1 (u, b) (alookup_mem hb)
      refine BalancesNonneg_aset hs.1 ?_
      split
      · omega
      · omega
    next => exact hs
  next => exact hs

theorem make_deposit_inv (s : CasinoSystem) (t : String) (hs : RunInv s) :
    RunInv (make_deposit s t).1 := by
  unfold make_deposit
  split
  next x u astr heq =>
    split
    · exact hs
    next a ha =>
      split
      · exact hs
      next hpos =>
        split
        · exact hs
        next hreg =>
          apply check_campaign_status_inv
          refine ⟨?_, hs.2⟩
          exact BalancesNonneg_aset hs.1
            (add_nonneg (alookup_getD_nonneg hs.1 u) (by omega))
  next => exact hs

theorem make_bet_inv (s : CasinoSystem) (t : String) (hs : RunInv s) :
    RunInv (make_bet s t).1 := by
  unfold make_bet add_slot_and_check
  split
  next x u g astr heq =>
    split
    · exact hs
    next a ha =>
      split
      · exact hs
      next hpos =>
        split
        · exact hs
        next hreg =>
          split
          · exact hs
          next hgame =>
            have hres : RunInv (resolve_bet s u a) := resolve_bet_inv s u a hs (by omega)
            split
            · exact check_campaign_status_inv _ u ⟨hres.1, hres.2⟩
            · exact hres
  next => exact hs

theorem get_balance_inv (s : CasinoSystem) (t : String) (hs : RunInv s) :
    RunInv (get_balance s t).1 := by
  unfold get_balance
  repeat' split
  all_goals exact hs

theorem step_inv (s : CasinoSystem) (t : String) (hs : RunInv s)
    (hscen : pystartswith t "addscenario" = true →
      ∀ tok ∈ (pysplit t).drop 1, nonnegTok tok = true) :
    RunInv (step s t).1 := by
  unfold step
  repeat' split
  all_goals first
    | exact make_registration_inv s t hs
    | exact add_scenario_inv s t hs (hscen (by assumption))
    | exact make_deposit_inv s t hs
    | exact make_bet_inv s t hs
    | exact get_balance_inv s t hs
    | exact hs

theorem runFrom_inv (cmds : List String) : ∀ s : CasinoSystem, RunInv s →
    (∀ t ∈ cmds, pystartswith t "addscenario" = true →
      ∀ tok ∈ (pysplit t).drop 1, nonnegTok tok = true) →
    RunInv (runFrom s cmds).1 := by
  induction cmds with
  | nil => intro s hs _; exact hs
  | cons t ts ih =>
    intro s hs hall
    unfold runFrom
    rcases hstep : step s t with ⟨s', e⟩
    have hs' : RunInv s' := by
      have h := step_inv s t hs (hall t (List.mem_cons_self _ _))
      rw [hstep] at h
      exact h
    cases e with
    | none => exact ih s' hs' (fun t' ht' => hall t' (List.mem_cons_of_mem _ ht'))
    | some err => exact hs'

theorem Inv_initCasino : RunInv initCasino :=
  ⟨fun p hp => absurd hp (List.not_mem_nil p),
   fun sc h => absurd h (List.not_mem_nil sc),
   fun q h => absurd h (List.not_mem_nil q)⟩

/-- Claim C9: in any run whose addscenario lines carry only prize tokens that
parse as non-negative integers, every user's ledger balance is non-negative
after every processed command (including the state at an aborting command). -/
theorem claim_C9_balances_nonneg (cmds : List String)
    (hscen : ∀ t ∈ cmds, pystartswith t "addscenario" = true →
      ∀ tok ∈ (pysplit t).drop 1, nonnegTok tok = true)
    (u : String) (b : Int)
    (hb : alookup (runFrom initCasino cmds).1.balances u = some b) :
    0 ≤ b :=
  (runFrom_inv cmds initCasino Inv_initCasino hscen).1 (u, b) (alookup_mem hb)

/-- Witness for claim C9 on a small concrete run. -/
theorem claim_C9_balances_nonneg_witness :
    (∀ t ∈ ["register u1", "addscenario 1 2 3", "deposit u1 100"],
      pystartswith t "addscenario" = true →
      ∀ tok ∈ (pysplit t).drop 1, nonnegTok tok = true) ∧
    alookup (runFrom initCasino
        ["register u1", "addscenario 1 2 3", "deposit u1 100"]).1.balances "u1" =
      some 100 ∧
    (0 : Int) ≤ 100 :=
  ⟨by decide, rfl,
    claim_C9_balances_nonneg ["register u1", "addscenario 1 2 3", "deposit u1 100"]
      (by decide) "u1" 100 rfl⟩

/-! ## Claim C10: validation failures leave the state untouched -/

/-- The handler result is an error raised with the state exactly as it was
when the handler was entered. -/
def failsCleanly (r : CasinoSystem × Option String) (s : CasinoSystem) : Prop :=
  r.1 = s ∧ r.2.isSome = true

/-- Claim C10: each format or validation error of the handlers — wrong token
count, unparseable amount, non-positive amount, duplicate registration,
unregistered user, invalid game type — is raised before any state mutation,
so the handler returns the entry state unchanged together with the error. -/
theorem claim_C10_checks_before_mutation :
    (∀ (s : CasinoSystem) (t : String), (pysplit t).length ≠ 2 →
        failsCleanly (make_registration s t) s) ∧
    (∀ (s : CasinoSystem) (t t0 u : String), pysplit t = [t0, u] →
        amem s.balances u = true → failsCleanly (make_registration s t) s) ∧
    (∀ (s : CasinoSystem) (t : String), (pysplit t).length ≠ 4 →
        failsCleanly (add_scenario s t) s) ∧
    (∀ (s : CasinoSystem) (t : String), (pysplit t).length ≠ 3 →
        failsCleanly (make_deposit s t) s) ∧
    (∀ (s : CasinoSystem) (t t0 u astr : String), pysplit t = [t0, u, astr] →
        pyParseInt astr = none → failsCleanly (make_deposit s t) s) ∧
    (∀ (s : CasinoSystem) (t t0 u astr : String) (a : Int), pysplit t = [t0, u, astr] →
        pyParseInt astr = some a → a ≤ 0 → failsCleanly (make_deposit s t) s) ∧
    (∀ (s : CasinoSystem) (t t0 u astr : String) (a : Int), pysplit t = [t0, u, astr] →
        pyParseInt astr = some a → 0 < a → amem s.balances u = false →
        failsCleanly (make_deposit s t) s) ∧
    (∀ (s : CasinoSystem) (t : String), (pysplit t).length ≠ 4 →
        failsCleanly (make_bet s t) s) ∧
    (∀ (s : CasinoSystem) (t t0 u g astr : String), pysplit t = [t0, u, g, astr] →
        pyParseInt astr = none → failsCleanly (make_bet s t) s) ∧
    (∀ (s : CasinoSystem) (t t0 u g astr : String) (a : Int), pysplit t = [t0, u, g, astr] →
        pyParseInt astr = some a → a ≤ 0 → failsCleanly (make_bet s t) s) ∧
    (∀ (s : CasinoSystem) (t t0 u g astr : String) (a : Int), pysplit t = [t0, u, g, astr] →
        pyParseInt astr = some a → 0 < a → amem s.balances u = false →
        failsCleanly (make_bet s t) s) ∧
    (∀ (s : CasinoSystem) (t t0 u g astr : String) (a : Int), pysplit t = [t0, u, g, astr] →
        pyParseInt astr = some a → 0 < a → amem s.balances u = true →
        g ≠ "SLOT" → g ≠ "CASINO" → g ≠ "SPORT" → failsCleanly (make_bet s t) s) ∧
    (∀ (s : CasinoSystem) (t : String), (pysplit t).length ≠ 2 →
        failsCleanly (get_balance s t) s) ∧
    (∀ (s : CasinoSystem) (t t0 u : String), pysplit t = [t0, u] →
        alookup s.balances u = none → failsCleanly (get_balance s t) s) := by
  refine ⟨?_, ?_, ?_, ?_, ?_, ?_, ?_, ?_, ?_, ?_, ?_, ?_, ?_, ?_⟩
  · intro s t h
    unfold make_registration
    split
    next x u heq => exact absurd (by rw [heq]; rfl) h
    next => exact ⟨rfl, rfl⟩
  · intro s t t0 u hsplit hdup
    simp [failsCleanly, make_registration, hsplit, hdup]
  · intro s t h
    unfold add_scenario
    split
    next x p1 p2 p3 heq => exact absurd (by rw [heq]; rfl) h
    next => exact ⟨rfl, rfl⟩
  · intro s t h
    unfold make_deposit
    split
    next x u astr heq => exact absurd (by rw [heq]; rfl) h
    next => exact ⟨rfl, rfl⟩
  · intro s t t0 u astr hsplit hparse
    simp [failsCleanly, make_deposit, hsplit, hparse]
  · intro s t t0 u astr a hsplit hparse ha
    simp [failsCleanly, make_deposit, hsplit, hparse, ha]
  · intro s t t0 u astr a hsplit hparse hpos hreg
    have h0 : ¬ a ≤ 0 := by omega
    simp [failsCleanly, make_deposit, hsplit, hparse, h0, hreg]
  · intro s t h
    unfold make_bet
    split
    next x u g astr heq => exact absurd (by rw [heq]; rfl) h
    next => exact ⟨rfl, rfl⟩
  · intro s t t0 u g astr hsplit hparse
    simp [failsCleanly, make_bet, hsplit, hparse]
  · intro s t t0 u g astr a hsplit hparse ha
    simp [failsCleanly, make_bet, hsplit, hparse, ha]
  · intro s t t0 u g astr a hsplit hparse hpos hreg
    have h0 : ¬ a ≤ 0 := by omega
    simp [failsCleanly, make_bet, hsplit, hparse, h0, hreg]
  · intro s t t0 u g astr a hsplit hparse hpos hreg hg1 hg2 hg3
    have h0 : ¬ a ≤ 0 := by omega
    simp [failsCleanly, make_bet, hsplit, hparse, h0, hreg, hg1, hg2, hg3]
  · intro s t h
    unfold get_balance
    split
    next x u heq => exact absurd (by rw [heq]; rfl) h
    next => exact ⟨rfl, rfl⟩
  · intro s t t0 u hsplit hreg
    simp [failsCleanly, get_balance, hsplit, hreg]

/-- Witness for claim C10: one concrete instance per enumerated error. -/
theorem claim_C10_checks_before_mutation_witness :
    failsCleanly (make_registration initCasino "register") initCasino ∧
    failsCleanly (make_registration betDemoState "register u") betDemoState ∧
    failsCleanly (add_scenario initCasino "addscenario 1 2") initCasino ∧
    failsCleanly (make_deposit initCasino "deposit u1") initCasino ∧
    failsCleanly (make_deposit initCasino "deposit u xx") initCasino ∧
    failsCleanly (make_deposit initCasino "deposit u -5") initCasino ∧
    failsCleanly (make_deposit initCasino "deposit zz 5") initCasino ∧
    failsCleanly (make_bet initCasino "bet u") initCasino ∧
    failsCleanly (make_bet initCasino "bet u SLOT xx") initCasino ∧
    failsCleanly (make_bet initCasino "bet u SLOT -1") initCasino ∧
    failsCleanly (make_bet initCasino "bet zz SLOT 5") initCasino ∧
    failsCleanly (make_bet betDemoState "bet u POKER 5") betDemoState ∧
    failsCleanly (get_balance initCasino "balance") initCasino ∧
    failsCleanly (get_balance initCasino "balance zz") initCasino := by
  refine ⟨?_, ?_, ?_, ?_, ?_, ?_, ?_, ?_, ?_, ?_, ?_, ?_, ?_, ?_⟩
  · exact claim_C10_checks_before_mutation.1 initCasino "register" (by decide)
  · exact claim_C10_checks_before_mutation.2.1 betDemoState "register u"
      "register" "u" rfl rfl
  · exact claim_C10_checks_before_mutation.2.2.1 initCasino "addscenario 1 2" (by decide)
  · exact claim_C10_checks_before_mutation.2.2.2.1 initCasino "deposit u1" (by decide)
  · exact claim_C10_checks_before_mutation.2.2.2.2.1 initCasino "deposit u xx"
      "deposit" "u" "xx" rfl rfl
  · exact claim_C10_checks_before_mutation.2.2.2.2.2.1 initCasino "deposit u -5"
      "deposit" "u" "-5" (-5) rfl rfl (by decide)
  · exact claim_C10_checks_before_mutation.2.2.2.2.2.2.1 initCasino "deposit zz 5"
      "deposit" "zz" "5" 5 rfl rfl (by decide) rfl
  · exact claim_C10_checks_before_mutation.2.2.2.2.2.2.2.1 initCasino "bet u" (by decide)
  · exact claim_C10_checks_before_mutation.2.2.2.2.2.2.2.2.1 initCasino "bet u SLOT xx"
      "bet" "u" "SLOT" "xx" rfl rfl
  · exact claim_C10_checks_before_mutation.2.2.2.2.2.2.2.2.2.1 initCasino "bet u SLOT -1"
      "bet" "u" "SLOT" "-1" (-1) rfl rfl (by decide)
  · exact claim_C10_checks_before_mutation.2.2.2.2.2.2.2.2.2.2.1 initCasino "bet zz SLOT 5"
      "bet" "zz" "SLOT" "5" 5 rfl rfl (by decide) rfl
  · exact claim_C10_checks_before_mutation.2.2.2.2.2.2.2.2.2.2.2.1 betDemoState
      "bet u POKER 5" "bet" "u" "POKER" "5" 5 rfl rfl (by decide) rfl
      (by decide) (by decide) (by decide)
  · exact claim_C10_checks_before_mutation.2.2.2.2.2.2.2.2.2.2.2.2.1 initCasino
      "balance" (by decide)
  · exact claim_C10_checks_before_mutation.2.2.2.2.2.2.2.2.2.2.2.2.2 initCasino
      "balance zz" "balance" "zz" rfl rfl
